import Mathlib

/-
Verification development for the `mds_import` annotation pipeline
(`mds_import/annotator.py`): a shallow embedding of the two-stage
annotator (`annotate_text`) and the batch orchestrator (`annotate_dds`),
together with theorems settling the specification's claims about them.

HTTP responses are modelled as explicit values handed to the embedded
functions: a recognizer (Nemo-Serve) response and, per recognized token,
a normalizer (SAPBERT) response.  Python exceptions are modelled with an
explicit `raised` outcome; an early `return []` is a normal value.
-/

namespace MdsImport

/-- One ranked concept candidate in a SAPBERT (normalizer) response:
`curie`, `label` and `distance_score` are the fields the code reads
(`closest_match['curie']` etc.).  Scores are kept as opaque strings,
since the code only interpolates them into an output string. -/
structure Candidate where
  curie : String
  label : String
  distance_score : String
deriving Repr, DecidableEq, Inhabited

/-- A token from the recognizer's `denotations` list: a JSON object,
modelled as an ordered key/value list (all values rendered as strings,
since the code passes them through opaquely). -/
structure Token where
  attrs : List (String × String)
deriving Repr, DecidableEq, Inhabited

/-- `token['text']`: the value under the `"text"` key, if present. -/
def Token.text? (t : Token) : Option String :=
  (t.attrs.find? (fun kv => kv.1 == "text")).map (fun kv => kv.2)

/-- Parsed body of a recognizer (Nemo-Serve) response, as consumed by
`annotate_text`: `response.json()` may fail to parse (`parseError`), may
parse but lack the `denotations` key (`noDenotations`, a `KeyError` when
read), or yields the token list. -/
inductive RecBody where
  | parseError : RecBody
  | noDenotations : RecBody
  | toks (ts : List Token) : RecBody
deriving Repr, DecidableEq

/-- A recognizer response: `response.ok` plus the parsed body. -/
structure RecResponse where
  ok : Bool
  body : RecBody
deriving Repr, DecidableEq

/-- Parsed body of a SAPBERT (normalizer) response: `response.json()`
may fail to parse, or yields the ranked candidate list. -/
inductive SapBody where
  | parseError : SapBody
  | results (cs : List Candidate) : SapBody
deriving Repr, DecidableEq

/-- A normalizer response: `response.ok` plus the parsed body. -/
structure SapResponse where
  ok : Bool
  body : SapBody
deriving Repr, DecidableEq

/-- The final annotation record built by `annotate_text`:
`denotation = dict(token)` (the token's fields) plus the added
`denotation['obj']` string. -/
structure Denot where
  attrs : List (String × String)
  obj : String
deriving Repr, DecidableEq, Inhabited

/-- The `obj` string: `f"MESH:{curie} ({label}, score: {distance_score})"`. -/
def objStr (c : Candidate) : String :=
  "MESH:" ++ c.curie ++ " (" ++ c.label ++ ", score: " ++ c.distance_score ++ ")"

/-- The Python exceptions `annotate_text` can raise: `json()` decode
failure on the recognizer response, `KeyError` on `annotated['denotations']`,
`KeyError` on `token['text']`, `AssertionError` on empty token text,
`json()` decode failure on a SAPBERT response, and `AssertionError` on an
empty (falsy) SAPBERT result list. -/
inductive AnnErr where
  | recParse : AnnErr
  | recMissingDens : AnnErr
  | tokenMissingText : AnnErr
  | tokenEmptyText : AnnErr
  | sapParse : AnnErr
  | sapEmptyResult : AnnErr
deriving Repr, DecidableEq

/-- Outcome of the per-token SAPBERT loop in `annotate_text`:
it either runs to completion with the accumulated `track_sapbert` list,
hits `return []` on a non-ok SAPBERT response (`earlyEmpty`, which
discards everything accumulated so far), or raises. -/
inductive LoopOut where
  | done (ds : List Denot) : LoopOut
  | earlyEmpty : LoopOut
  | raised (e : AnnErr) : LoopOut
deriving Repr, DecidableEq

/-- Result of the per-token loop plus the list of token texts actually
POSTed to the SAPBERT endpoint (in order). -/
structure LoopResult where
  out : LoopOut
  calls : List String
deriving Repr, DecidableEq

/-- The `for token in track_token_classification` loop of `annotate_text`.
`sap j` is the SAPBERT response to the `j`-th POST of this call; `i` is
the index of the current token.  Mirrors, in order: `text = token['text']`
(KeyError if absent), `assert text`, the POST, `if not response.ok:
return []`, `result = response.json()`, `assert result`, and the
construction and accumulation of the denotation from `result[0]`. -/
def annotate_tokens (sap : Nat → SapResponse) : List Token → Nat → LoopResult
  | [], _ => ⟨.done [], []⟩
  | t :: ts, i =>
    match t.text? with
    | none => ⟨.raised .tokenMissingText, []⟩
    | some txt =>
      if txt = "" then ⟨.raised .tokenEmptyText, []⟩
      else
        let resp := sap i
        if resp.ok = false then ⟨.earlyEmpty, [txt]⟩
        else
          match resp.body with
          | .parseError => ⟨.raised .sapParse, [txt]⟩
          | .results [] => ⟨.raised .sapEmptyResult, [txt]⟩
          | .results (c :: _) =>
            let d : Denot := ⟨t.attrs, objStr c⟩
            let rest := annotate_tokens sap ts (i + 1)
            match rest.out with
            | .done ds => ⟨.done (d :: ds), txt :: rest.calls⟩
            | o => ⟨o, txt :: rest.calls⟩

/-- The network environment of one `annotate_text` call: the recognizer
response to the initial POST, and the normalizer response to each
subsequent POST, by call index. -/
structure AnnotateInput where
  recResp : RecResponse
  sap : Nat → SapResponse

/-- How a call to `annotate_text` ends: a returned value or a raised
exception propagating to the caller. -/
inductive AnnOutcome where
  | ret (ds : List Denot) : AnnOutcome
  | raised (e : AnnErr) : AnnOutcome
deriving Repr, DecidableEq

/-- Result of `annotate_text` plus the SAPBERT calls it performed. -/
structure AnnResult where
  outcome : AnnOutcome
  sapCalls : List String
deriving Repr, DecidableEq

/-- `annotate_text` (annotator.py lines 36–89).  Stage 1: on a non-ok
recognizer response, log and `return []` (no SAPBERT call is made);
otherwise read `annotated['denotations']` (raising on a malformed body or
a missing key) and run the per-token loop; an `earlyEmpty` loop exit is
the `return []` inside the loop. -/
def annotate_text (inp : AnnotateInput) : AnnResult :=
  if inp.recResp.ok = false then ⟨.ret [], []⟩
  else
    match inp.recResp.body with
    | .parseError => ⟨.raised .recParse, []⟩
    | .noDenotations => ⟨.raised .recMissingDens, []⟩
    | .toks ts =>
      let r := annotate_tokens inp.sap ts 0
      match r.out with
      | .done ds => ⟨.ret ds, r.calls⟩
      | .earlyEmpty => ⟨.ret [], r.calls⟩
      | .raised e => ⟨.raised e, r.calls⟩

/-- A field object of a data dictionary, as read by `annotate_dds`:
a JSON object carrying optional `name`, `description`, `type`, `format`
and `encodings` entries (`field.get(..., default)` supplies the default
when an entry is absent).  Encodings are an ordered key/value mapping. -/
structure Field where
  name? : Option String
  description? : Option String
  type? : Option String
  format? : Option String
  encodings? : Option (List (String × String))
deriving Repr, DecidableEq, Inhabited

/-- The `encodings_as_str` accumulation of `annotate_dds`: for each
encoding pair, `f"{key}: {value}"` plus a newline, appended in order. -/
def encodings_as_str (encodings : List (String × String)) : String :=
  encodings.foldl (fun acc kv => acc ++ (kv.1 ++ ": " ++ kv.2 ++ "\n")) ""

/-- The per-field annotation input text of `annotate_dds`
(the spec's `buildText`): `f"{name}: {desc}\n{encodings_as_str}"` with
`name = field.get('name', '')`, `desc = field.get('description', '')`,
`encodings = field.get('encodings', dict())`. -/
def build_text (f : Field) : String :=
  (f.name?.getD "") ++ ": " ++ (f.description?.getD "") ++ "\n"
    ++ encodings_as_str (f.encodings?.getD [])

/-- The shape of a parsed data-dictionary document at its
`data_dictionary` key, as `annotate_dds` distinguishes them:
the key may be absent (`doc.get` yields `dict()`), may hold the field
list directly (the bare-list shape), or may hold a mapping which may in
turn hold the field list under its own `data_dictionary` key. -/
inductive DocShape where
  | noKey : DocShape
  | bareList (fs : List Field) : DocShape
  | nested (inner? : Option (List Field)) : DocShape
deriving Repr, DecidableEq

/-- Field extraction from a parsed document (annotator.py lines 116–123):
`dd_outer = doc.get('data_dictionary', dict())`; if it is a list, that is
the field list; otherwise `fields = dd_outer.get('data_dictionary',
dict())` (an empty mapping iterates as no fields). -/
def parse_fields : DocShape → List Field
  | .noKey => []
  | .bareList fs => fs
  | .nested none => []
  | .nested (some fs) => fs

/-- One file in the input directory: its name and the result of
`json.load` on its contents (`.error` models a raised decode error). -/
structure InputFile where
  filename : String
  content : Except Unit DocShape

/-- `filename.lower().endswith('.json')`: the input-file filter,
expressed over the character sequence (lowercase each character, then
test for the `.json` suffix). -/
def isJsonName (s : String) : Bool :=
  (".json".data).isSuffixOf (s.data.map Char.toLower)

/-- The orchestrator's running counters and the end-of-run summary:
`count_files`, `count_fields`, `count_annotations` and the
`unannotated_fields` list, as logged at the end of `annotate_dds`. -/
structure Summary where
  count_files : Nat
  count_fields : Nat
  count_annotations : Nat
  unannotated_fields : List String
deriving Repr, DecidableEq

/-- The body of the `for field in fields` loop of `annotate_dds`
(lines 127–156): increment `count_fields`, build the text, and run
`annotate_text` inside `try/except`.  A returned empty list records
`f'{filename}:{name}'` in `unannotated_fields`; a returned list adds its
length to `count_annotations`; a raised exception is caught and only
logged.  `net` maps the text sent to `annotate_text` to the network
responses that call sees. -/
def processField (net : String → AnnotateInput) (filename : String)
    (st : Summary) (f : Field) : Summary :=
  let st1 : Summary := { st with count_fields := st.count_fields + 1 }
  match (annotate_text (net (build_text f))).outcome with
  | .ret ds =>
    let st2 : Summary :=
      if ds.length = 0 then
        { st1 with unannotated_fields :=
            st1.unannotated_fields ++ [filename ++ ":" ++ (f.name?.getD "")] }
      else st1
    { st2 with count_annotations := st2.count_annotations + ds.length }
  | .raised _ => st1

/-- The body of the `for filename in os.listdir(...)` loop of
`annotate_dds` (lines 107–127): skip names not ending in `.json`
(case-insensitively); otherwise count the file, `json.load` it (a decode
failure raises, uncaught, aborting the run), extract the fields and fold
the per-field loop over them. -/
def processFile (net : String → AnnotateInput) (st : Summary)
    (file : InputFile) : Except Unit Summary :=
  if isJsonName file.filename then
    match file.content with
    | .error e => .error e
    | .ok doc =>
      let st1 : Summary := { st with count_files := st.count_files + 1 }
      .ok ((parse_fields doc).foldl (processField net file.filename) st1)
  else .ok st

/-- The file loop of `annotate_dds`, threading the counters through the
files in directory order; a raised decode error aborts the whole run. -/
def run_files (net : String → AnnotateInput) :
    Summary → List InputFile → Except Unit Summary
  | st, [] => .ok st
  | st, file :: rest =>
    match processFile net st file with
    | .error e => .error e
    | .ok st2 => run_files net st2 rest

/-- `annotate_dds` (annotator.py lines 92–159): process every input file
starting from zeroed counters, and report the end-of-run summary; a
raised exception (an input file that fails to parse) escapes. -/
def annotate_dds (net : String → AnnotateInput) (files : List InputFile) :
    Except Unit Summary :=
  run_files net ⟨0, 0, 0, []⟩ files

/-- The HTTP retry configuration mounted on the shared session
(annotator.py line 30): `status_forcelist=[429, 500, 502, 503, 504]`. -/
def retry_status_forcelist : List Nat := [429, 500, 502, 503, 504]

/-- Modelled from the spec: the attempt budget of the mounted retry
policy.  The `urllib3 Retry` class that interprets `total=4` is
third-party code not in this repository; the spec states "up to 4 total
attempts", so the budget is 4 attempts in total. -/
def retry_total : Nat := 4

/-- Modelled from the spec: the retry loop of the HTTP client.
`responses i` is the status code answering attempt `i` (0-based);
`budget` is the number of attempts still allowed.  An attempt whose
status is in the forcelist is retried while budget remains; the call
otherwise resolves to that status.  Returns the final status and the
total number of attempts made. -/
def retryFrom (responses : Nat → Nat) : Nat → Nat → Nat × Nat
  | 0, i => (responses i, i + 1)
  | 1, i => (responses i, i + 1)
  | b + 2, i =>
    if responses i ∈ retry_status_forcelist then retryFrom responses (b + 1) (i + 1)
    else (responses i, i + 1)

/-- Modelled from the spec: one outbound request through the shared
session — attempts start at index 0 with the full budget. -/
def sendWithRetry (responses : Nat → Nat) : Nat × Nat :=
  retryFrom responses retry_total 0

/-- Modelled from the spec: the backoff delay (in seconds) slept between
attempt `n` and attempt `n + 1`, for `backoff_factor=1` — approximately
0s, then 1s, 2s, 4s, doubling each retry. -/
def backoff_delay (n : Nat) : Nat :=
  if n ≤ 1 then 0 else 2 ^ (n - 2)

/-! Derived (specification-side) definitions used to state the claims. -/

/-- A token/response pair on which the SAPBERT loop advances without
early return or exception: the token has non-empty text, the response is
ok, and its parsed candidate list is non-empty. -/
def goodStep (t : Token) (r : SapResponse) : Bool :=
  match t.text?, r.ok, r.body with
  | some s, true, .results (_ :: _) => !(s == "")
  | _, _, _ => false

/-- All tokens of the list advance the loop, against the responses the
loop will see starting at call index `i`. -/
def goodAll (sap : Nat → SapResponse) : List Token → Nat → Bool
  | [], _ => true
  | t :: ts, i => goodStep t (sap i) && goodAll sap ts (i + 1)

/-- The first (closest-match) candidate of a normalizer response. -/
def firstCand (r : SapResponse) : Candidate :=
  match r.body with
  | .results (c :: _) => c
  | _ => default

/-- The denotation synthesized for a token from its response's first
candidate. -/
def mkDenot (t : Token) (r : SapResponse) : Denot :=
  ⟨t.attrs, objStr (firstCand r)⟩

/-- The denotations produced by an all-good run of the loop over `ts`
starting at call index `i`, one per token, in token order. -/
def goodDens (sap : Nat → SapResponse) : List Token → Nat → List Denot
  | [], _ => []
  | t :: ts, i => mkDenot t (sap i) :: goodDens sap ts (i + 1)

/-- The token texts POSTed by an all-good run of the loop. -/
def goodCalls : List Token → List String
  | [] => []
  | t :: ts => (t.text?.getD "") :: goodCalls ts

/-- Prepend already-accumulated denotations to a loop outcome: a
completed tail keeps them, while an early return or an exception
discards them. -/
def LoopOut.prepend (ds : List Denot) : LoopOut → LoopOut
  | .done ds2 => .done (ds ++ ds2)
  | o => o

/-- One line `"{key}: {value}\n"` per encoding pair, in order — the
specification's description of the encoding block of the field text. -/
def encLines : List (String × String) → String
  | [] => ""
  | kv :: rest => kv.1 ++ ": " ++ kv.2 ++ "\n" ++ encLines rest

/-- The outcome of annotating one field inside the orchestrator: what
`annotate_text` does on the field's built text. -/
def fieldAnnots (net : String → AnnotateInput) (f : Field) : AnnOutcome :=
  (annotate_text (net (build_text f))).outcome

/-- The number of annotations a field contributes to `count_annotations`:
the length of a returned list; nothing on a caught exception. -/
def fieldAnnotCount (net : String → AnnotateInput) (f : Field) : Nat :=
  match fieldAnnots net f with
  | .ret ds => ds.length
  | .raised _ => 0

/-- The identifier recorded for an unannotated field:
`f'{filename}:{name}'`. -/
def fieldId (filename : String) (f : Field) : String :=
  filename ++ ":" ++ (f.name?.getD "")

/-- The contribution of one field to `unannotated_fields`: its identifier
exactly when its annotation *returned* the empty list — a field whose
annotation raised contributes nothing. -/
def fieldUnannot (net : String → AnnotateInput) (filename : String)
    (f : Field) : List String :=
  match fieldAnnots net f with
  | .ret [] => [fieldId filename f]
  | _ => []

/-- Total annotations over a field list. -/
def sumAnnots (net : String → AnnotateInput) : List Field → Nat
  | [] => 0
  | f :: fs => fieldAnnotCount net f + sumAnnots net fs

/-- Concatenated unannotated-field identifiers over a field list. -/
def unannots (net : String → AnnotateInput) (filename : String) :
    List Field → List String
  | [] => []
  | f :: fs => fieldUnannot net filename f ++ unannots net filename fs

/-- The fields a file contributes (none if it failed to parse — such a
run aborts anyway). -/
def docFields (file : InputFile) : List Field :=
  match file.content with
  | .ok doc => parse_fields doc
  | .error _ => []

/-- Number of `.json` files among the inputs. -/
def countJson : List InputFile → Nat
  | [] => 0
  | f :: fs => (if isJsonName f.filename then 1 else 0) + countJson fs

/-- Total field count over the `.json` input files. -/
def totalFieldCount : List InputFile → Nat
  | [] => 0
  | f :: fs =>
    (if isJsonName f.filename then (docFields f).length else 0) + totalFieldCount fs

/-- Total annotation count over the `.json` input files. -/
def totalAnnots (net : String → AnnotateInput) : List InputFile → Nat
  | [] => 0
  | f :: fs =>
    (if isJsonName f.filename then sumAnnots net (docFields f) else 0)
      + totalAnnots net fs

/-- The full end-of-run `unannotated_fields` list over the `.json` input
files, in processing order. -/
def allUnannots (net : String → AnnotateInput) : List InputFile → List String
  | [] => []
  | f :: fs =>
    (if isJsonName f.filename then unannots net f.filename (docFields f) else [])
      ++ allUnannots net fs

/-! Concrete inputs used by witnesses and counterexamples. -/

/-- A well-formed token with text `"heart"`. -/
def tokHeart : Token := ⟨[("id", "T1"), ("text", "heart"), ("span", "0:5")]⟩

/-- A second well-formed token with text `"rate"`. -/
def tokRate : Token := ⟨[("id", "T2"), ("text", "rate"), ("span", "6:10")]⟩

/-- A token whose `text` entry is the empty string. -/
def tokEmpty : Token := ⟨[("id", "T3"), ("text", "")]⟩

/-- A token with no `text` entry at all. -/
def tokNoText : Token := ⟨[("id", "T4")]⟩

/-- A normalizer stub answering every call ok, with one candidate. -/
def sapAllOk : Nat → SapResponse :=
  fun _ => ⟨true, .results [⟨"C0018787", "Heart", "0.12"⟩, ⟨"C0034107", "Pulse", "0.48"⟩]⟩

/-- A normalizer stub answering every call with a non-success status. -/
def sapAllDown : Nat → SapResponse :=
  fun _ => ⟨false, .results []⟩

/-- A normalizer stub answering every call ok but with an empty
candidate list. -/
def sapAllEmpty : Nat → SapResponse :=
  fun _ => ⟨true, .results []⟩

/-- Annotate input: recognizer ok with two good tokens, normalizer ok. -/
def inpTwoGood : AnnotateInput := ⟨⟨true, .toks [tokHeart, tokRate]⟩, sapAllOk⟩

/-- Annotate input: recognizer response with a non-success status. -/
def inpRecDown : AnnotateInput := ⟨⟨false, .toks [tokHeart]⟩, sapAllOk⟩

/-- Annotate input: recognizer ok but its body fails to parse. -/
def inpRecBad : AnnotateInput := ⟨⟨true, .parseError⟩, sapAllOk⟩

/-- Annotate input: recognizer ok, one good token, normalizer down. -/
def inpSapDown : AnnotateInput := ⟨⟨true, .toks [tokHeart]⟩, sapAllDown⟩

/-- Annotate input: recognizer ok, one good token, normalizer ok with an
empty candidate list. -/
def inpSapEmpty : AnnotateInput := ⟨⟨true, .toks [tokHeart]⟩, sapAllEmpty⟩

/-- Annotate input: a good token followed by an empty-text token, with
the normalizer down (so the empty-text token is never reached). -/
def inpEmptyShadowed : AnnotateInput :=
  ⟨⟨true, .toks [tokHeart, tokEmpty]⟩, sapAllDown⟩

/-- Annotate input: the empty-text token first, normalizer ok. -/
def inpEmptyFirst : AnnotateInput := ⟨⟨true, .toks [tokEmpty]⟩, sapAllOk⟩

/-- A field whose annotation will raise under `exNet` (name `r`). -/
def fldRaise : Field := ⟨some "r", some "raising field", some "string", none, none⟩

/-- A field whose annotation will return no annotations under `exNet`
(name `z`). -/
def fldZero : Field := ⟨some "z", some "zero field", some "string", none, none⟩

/-- A field whose annotation will return one annotation under `exNet`
(name `g`). -/
def fldGood : Field := ⟨some "g", some "good field", some "integer", none,
  some [("1", "yes"), ("2", "no")]⟩

/-- A network environment for orchestrator runs, keyed on the built
field text: the `r` field's recognizer body fails to parse (so
`annotate_text` raises), the `z` field's recognizer is down (so it
returns zero annotations), and any other field annotates cleanly with
one token. -/
def exNet : String → AnnotateInput :=
  fun text =>
    if text = build_text fldRaise then ⟨⟨true, .parseError⟩, sapAllOk⟩
    else if text = build_text fldZero then ⟨⟨false, .toks []⟩, sapAllOk⟩
    else ⟨⟨true, .toks [tokHeart]⟩, sapAllOk⟩

/-- Input batch: one file with a raising field (the C1 counterexample). -/
def filesRaiseOnly : List InputFile :=
  [⟨"a.json", .ok (.bareList [fldRaise])⟩]

/-- Input batch: a raising field and a zero-annotation field in one file,
a good field in a second file, and a non-json file that is skipped. -/
def filesMixed : List InputFile :=
  [⟨"a.json", .ok (.bareList [fldRaise, fldZero])⟩,
   ⟨"B.JSON", .ok (.nested (some [fldGood]))⟩,
   ⟨"notes.txt", .error ()⟩]

/-- Input batch: a good file followed by a file whose JSON fails to
parse. -/
def filesBadParse : List InputFile :=
  [⟨"a.json", .ok (.bareList [fldGood])⟩,
   ⟨"bad.json", .error ()⟩]

/-! Helper lemmas about the SAPBERT loop. -/

theorem LoopOut.prepend_nil (o : LoopOut) : LoopOut.prepend [] o = o := by
  cases o <;> rfl

theorem LoopOut.prepend_prepend (ds1 ds2 : List Denot) (o : LoopOut) :
    LoopOut.prepend ds1 (LoopOut.prepend ds2 o) = LoopOut.prepend (ds1 ++ ds2) o := by
  cases o <;> simp [LoopOut.prepend]

theorem goodStep_spec {t : Token} {r : SapResponse} (h : goodStep t r = true) :
    ∃ s, t.text? = some s ∧ s ≠ "" ∧ r.ok = true ∧
      ∃ c cs, r.body = SapBody.results (c :: cs) := by
  unfold goodStep at h
  split at h
  · rename_i s c cs hts hok hb
    exact ⟨s, hts, by simpa using h, hok, c, cs, hb⟩
  · simp at h

theorem annotate_tokens_cons_noText {t : Token} (sap : Nat → SapResponse)
    (ts : List Token) (i : Nat) (h : t.text? = none) :
    annotate_tokens sap (t :: ts) i = ⟨.raised .tokenMissingText, []⟩ := by
  simp [annotate_tokens, h]

theorem annotate_tokens_cons_emptyText {t : Token} (sap : Nat → SapResponse)
    (ts : List Token) (i : Nat) (h : t.text? = some "") :
    annotate_tokens sap (t :: ts) i = ⟨.raised .tokenEmptyText, []⟩ := by
  simp [annotate_tokens, h]

theorem annotate_tokens_cons_notOk {t : Token} {s : String}
    (sap : Nat → SapResponse) (ts : List Token) (i : Nat)
    (h : t.text? = some s) (hs : s ≠ "") (hok : (sap i).ok = false) :
    annotate_tokens sap (t :: ts) i = ⟨.earlyEmpty, [s]⟩ := by
  simp [annotate_tokens, h, hs, hok]

theorem annotate_tokens_cons_sapParse {t : Token} {s : String}
    (sap : Nat → SapResponse) (ts : List Token) (i : Nat)
    (h : t.text? = some s) (hs : s ≠ "") (hok : (sap i).ok = true)
    (hb : (sap i).body = .parseError) :
    annotate_tokens sap (t :: ts) i = ⟨.raised .sapParse, [s]⟩ := by
  simp [annotate_tokens, h, hs, hok, hb]

theorem annotate_tokens_cons_sapEmpty {t : Token} {s : String}
    (sap : Nat → SapResponse) (ts : List Token) (i : Nat)
    (h : t.text? = some s) (hs : s ≠ "") (hok : (sap i).ok = true)
    (hb : (sap i).body = .results []) :
    annotate_tokens sap (t :: ts) i = ⟨.raised .sapEmptyResult, [s]⟩ := by
  simp [annotate_tokens, h, hs, hok, hb]

theorem annotate_tokens_cons_good {t : Token} {s : String} {c : Candidate}
    {cs : List Candidate} (sap : Nat → SapResponse) (ts : List Token) (i : Nat)
    (h : t.text? = some s) (hs : s ≠ "") (hok : (sap i).ok = true)
    (hb : (sap i).body = .results (c :: cs)) :
    annotate_tokens sap (t :: ts) i =
      ⟨LoopOut.prepend [⟨t.attrs, objStr c⟩] (annotate_tokens sap ts (i + 1)).out,
       s :: (annotate_tokens sap ts (i + 1)).calls⟩ := by
  simp only [annotate_tokens, h, hs, hok, hb]
  cases (annotate_tokens sap ts (i + 1)).out <;> simp [LoopOut.prepend]

theorem annotate_tokens_split (sap : Nat → SapResponse) (ts₂ : List Token) :
    ∀ (ts₁ : List Token) (i : Nat), goodAll sap ts₁ i = true →
    annotate_tokens sap (ts₁ ++ ts₂) i =
      ⟨LoopOut.prepend (goodDens sap ts₁ i)
         (annotate_tokens sap ts₂ (i + ts₁.length)).out,
       goodCalls ts₁ ++ (annotate_tokens sap ts₂ (i + ts₁.length)).calls⟩ := by
  intro ts₁
  induction ts₁ with
  | nil =>
    intro i _
    simp [goodDens, goodCalls, LoopOut.prepend_nil]
  | cons t ts ih =>
    intro i h
    rw [goodAll, Bool.and_eq_true] at h
    obtain ⟨h1, h2⟩ := h
    obtain ⟨s, hts, hs, hok, c, cs, hb⟩ := goodStep_spec h1
    rw [List.cons_append, annotate_tokens_cons_good sap (ts ++ ts₂) i hts hs hok hb,
      ih (i + 1) h2]
    have hlen : i + 1 + ts.length = i + (t :: ts).length := by
      simp only [List.length_cons]; omega
    rw [hlen]
    simp [LoopOut.prepend_prepend, goodDens, goodCalls, hts, mkDenot, firstCand, hb]

theorem annotate_tokens_allGood (sap : Nat → SapResponse) (ts : List Token)
    (i : Nat) (h : goodAll sap ts i = true) :
    annotate_tokens sap ts i = ⟨.done (goodDens sap ts i), goodCalls ts⟩ := by
  have h2 := annotate_tokens_split sap [] ts i h
  simpa [annotate_tokens, LoopOut.prepend] using h2

theorem annotate_text_of_loop (inp : AnnotateInput) (ts : List Token)
    (hok : inp.recResp.ok = true) (hb : inp.recResp.body = .toks ts) :
    annotate_text inp =
      ⟨match (annotate_tokens inp.sap ts 0).out with
       | .done ds => .ret ds
       | .earlyEmpty => .ret []
       | .raised e => .raised e,
       (annotate_tokens inp.sap ts 0).calls⟩ := by
  simp only [annotate_text, hok, hb]
  cases (annotate_tokens inp.sap ts 0).out <;> simp

theorem annotate_text_reach (inp : AnnotateInput) (ts₁ : List Token)
    (t : Token) (ts₂ : List Token) (hok : inp.recResp.ok = true)
    (hb : inp.recResp.body = .toks (ts₁ ++ t :: ts₂))
    (hg : goodAll inp.sap ts₁ 0 = true) :
    (annotate_text inp).outcome =
      match (annotate_tokens inp.sap (t :: ts₂) ts₁.length).out with
      | .done ds => .ret (goodDens inp.sap ts₁ 0 ++ ds)
      | .earlyEmpty => .ret []
      | .raised e => .raised e := by
  rw [annotate_text_of_loop inp _ hok hb,
    annotate_tokens_split inp.sap (t :: ts₂) ts₁ 0 hg]
  simp only [Nat.zero_add]
  cases (annotate_tokens inp.sap (t :: ts₂) ts₁.length).out <;>
    simp [LoopOut.prepend]

theorem goodDens_length (sap : Nat → SapResponse) :
    ∀ (ts : List Token) (i : Nat), (goodDens sap ts i).length = ts.length := by
  intro ts
  induction ts with
  | nil => intro i; simp [goodDens]
  | cons t ts ih => intro i; simp [goodDens, ih (i + 1)]

theorem goodDens_get? (sap : Nat → SapResponse) :
    ∀ (ts : List Token) (i j : Nat),
    (goodDens sap ts i)[j]? = (ts[j]?).map (fun t => mkDenot t (sap (i + j))) := by
  intro ts
  induction ts with
  | nil => intro i j; simp [goodDens]
  | cons t ts ih =>
    intro i j
    cases j with
    | zero => simp [goodDens]
    | succ j =>
      have harith : i + 1 + j = i + (j + 1) := by omega
      simp [goodDens, ih (i + 1) j, harith]

theorem encodings_foldl (l : List (String × String)) :
    ∀ acc : String,
    l.foldl (fun a kv => a ++ (kv.1 ++ ": " ++ kv.2 ++ "\n")) acc = acc ++ encLines l := by
  induction l with
  | nil => intro acc; simp [encLines, String.append_empty]
  | cons kv l ih =>
    intro acc
    rw [List.foldl_cons, ih]
    simp [encLines, String.append_assoc]

/-! Helper lemmas about the orchestrator. -/

theorem foldl_processField (net : String → AnnotateInput) (filename : String) :
    ∀ (fs : List Field) (st : Summary),
    fs.foldl (processField net filename) st =
      ⟨st.count_files, st.count_fields + fs.length,
       st.count_annotations + sumAnnots net fs,
       st.unannotated_fields ++ unannots net filename fs⟩ := by
  intro fs
  induction fs with
  | nil => intro st; simp [sumAnnots, unannots]
  | cons f fs ih =>
    intro st
    rw [List.foldl_cons, ih]
    unfold processField
    cases hA : (annotate_text (net (build_text f))).outcome with
    | raised e =>
      simp [sumAnnots, unannots, fieldAnnotCount, fieldUnannot, fieldAnnots, hA,
        Summary.mk.injEq]
      omega
    | ret ds =>
      cases ds with
      | nil =>
        simp [sumAnnots, unannots, fieldAnnotCount, fieldUnannot, fieldAnnots, hA,
          fieldId, Summary.mk.injEq]
        omega
      | cons d ds =>
        simp [sumAnnots, unannots, fieldAnnotCount, fieldUnannot, fieldAnnots, hA,
          Summary.mk.injEq]
        omega

theorem run_files_ok (net : String → AnnotateInput) :
    ∀ (files : List InputFile) (st : Summary),
    (∀ file ∈ files, isJsonName file.filename = true →
      ∃ d, file.content = Except.ok d) →
    run_files net st files =
      .ok ⟨st.count_files + countJson files,
           st.count_fields + totalFieldCount files,
           st.count_annotations + totalAnnots net files,
           st.unannotated_fields ++ allUnannots net files⟩ := by
  intro files
  induction files with
  | nil =>
    intro st _
    simp [run_files, countJson, totalFieldCount, totalAnnots, allUnannots]
  | cons file rest ih =>
    intro st h
    have hrest : ∀ f ∈ rest, isJsonName f.filename = true →
        ∃ d, f.content = Except.ok d :=
      fun f hf => h f (List.mem_cons_of_mem _ hf)
    cases hj : isJsonName file.filename with
    | false =>
      rw [run_files]
      simp only [processFile, hj, Bool.false_eq_true, if_false]
      rw [ih st hrest]
      simp [countJson, totalFieldCount, totalAnnots, allUnannots, hj]
    | true =>
      obtain ⟨d, hd⟩ := h file (List.mem_cons_self _ _) hj
      rw [run_files]
      simp only [processFile, hj, if_true, hd]
      rw [foldl_processField net file.filename (parse_fields d)
        { st with count_files := st.count_files + 1 }]
      rw [ih _ hrest]
      simp [countJson, totalFieldCount, totalAnnots, allUnannots, hj, docFields, hd,
        Summary.mk.injEq, List.append_assoc]
      omega

theorem run_files_error (net : String → AnnotateInput) :
    ∀ (files : List InputFile) (st : Summary),
    (∃ file ∈ files, isJsonName file.filename = true ∧
      file.content = Except.error ()) →
    run_files net st files = .error () := by
  intro files
  induction files with
  | nil => intro st h; obtain ⟨file, hf, _⟩ := h; simp at hf
  | cons file rest ih =>
    intro st h
    obtain ⟨bad, hmem, hj, hbad⟩ := h
    rcases List.mem_cons.mp hmem with heq | hmem'
    · subst heq
      rw [run_files]
      simp [processFile, hj, hbad]
    · rw [run_files]
      cases hstep : processFile net st file with
      | error e => cases e; rfl
      | ok st2 => exact ih st2 ⟨bad, hmem', hj, hbad⟩

/-! Helper lemmas about the retry model. -/

theorem retryFrom_attempts_le (responses : Nat → Nat) :
    ∀ (b i : Nat), (retryFrom responses b i).2 ≤ i + max b 1
  | 0, i => by simp [retryFrom]
  | 1, i => by simp [retryFrom]
  | b + 2, i => by
    rw [retryFrom]
    split
    · have h := retryFrom_attempts_le responses (b + 1) (i + 1)
      omega
    · simp

theorem retryFrom_attempts_ge (responses : Nat → Nat) :
    ∀ (b i : Nat), i + 1 ≤ (retryFrom responses b i).2
  | 0, i => by simp [retryFrom]
  | 1, i => by simp [retryFrom]
  | b + 2, i => by
    rw [retryFrom]
    split
    · have h := retryFrom_attempts_ge responses (b + 1) (i + 1)
      omega
    · simp

/-! Claim theorems. -/

/-- Claim C1 (amended): when every `.json` input file parses, the batch
run completes with no exception escaping — the orchestrator catches any
exception the annotator raises for a field and continues — and every
field, raising ones included, is counted in `count_fields`; however the
`unannotated_fields` list contains exactly the identifiers of the fields
whose annotation *returned* an empty sequence: a field whose annotation
raised is only logged, not recorded in that list. -/
theorem c1_run_characterization (net : String → AnnotateInput)
    (files : List InputFile)
    (h : ∀ file ∈ files, isJsonName file.filename = true →
      ∃ d, file.content = Except.ok d) :
    annotate_dds net files =
      .ok ⟨countJson files, totalFieldCount files, totalAnnots net files,
           allUnannots net files⟩ := by
  unfold annotate_dds
  rw [run_files_ok net files ⟨0, 0, 0, []⟩ h]
  simp

/-- Witness for C1: a batch with a raising field and a zero-annotation
field in one file, a good field in a second, and a skipped non-json
file: the run completes, all 3 fields are counted, and only the
zero-annotation field is listed. -/
theorem c1_run_characterization_witness :
    annotate_dds exNet filesMixed = .ok ⟨2, 3, 1, ["a.json:z"]⟩ := by
  rw [c1_run_characterization exNet filesMixed ?h]
  case h =>
    intro file hf hj
    fin_cases hf
    · exact ⟨_, rfl⟩
    · exact ⟨_, rfl⟩
    · exact absurd hj (by decide)
  rfl

/-- Counterexample for C1 as stated: one file, one field whose
annotation raises; the run completes and counts the field, but the
field's identifier `a.json:r` does *not* appear in the end-of-run
unannotated-fields list (it is empty). -/
theorem c1_counterexample :
    fieldAnnots exNet fldRaise = .raised .recParse ∧
    annotate_dds exNet filesRaiseOnly = .ok ⟨1, 1, 0, []⟩ ∧
    ([] : List String).contains (fieldId "a.json" fldRaise) = false :=
  ⟨by decide, rfl, by decide⟩

/-- Claim C2 (amended): with an ok recognizer response, a malformed
recognizer body or a missing `denotations` key raises; and once the
SAPBERT loop reaches a token (all earlier tokens processed cleanly), a
missing `text` key raises, an empty token text raises, and a malformed
SAPBERT body raises — but a SAPBERT response with non-success status does
*not* raise: `annotate_text` immediately returns the empty sequence. -/
theorem c2_hard_failures (inp : AnnotateInput) (hok : inp.recResp.ok = true) :
    (inp.recResp.body = .parseError →
      (annotate_text inp).outcome = .raised .recParse) ∧
    (inp.recResp.body = .noDenotations →
      (annotate_text inp).outcome = .raised .recMissingDens) ∧
    (∀ ts₁ t ts₂, inp.recResp.body = .toks (ts₁ ++ t :: ts₂) →
      goodAll inp.sap ts₁ 0 = true →
      ((t.text? = none →
          (annotate_text inp).outcome = .raised .tokenMissingText) ∧
       (t.text? = some "" →
          (annotate_text inp).outcome = .raised .tokenEmptyText) ∧
       (∀ s, t.text? = some s → s ≠ "" →
         (((inp.sap ts₁.length).ok = true →
             (inp.sap ts₁.length).body = .parseError →
             (annotate_text inp).outcome = .raised .sapParse) ∧
          ((inp.sap ts₁.length).ok = false →
             (annotate_text inp).outcome = .ret []))))) := by
  refine ⟨?_, ?_, ?_⟩
  · intro hb; simp [annotate_text, hok, hb]
  · intro hb; simp [annotate_text, hok, hb]
  · intro ts₁ t ts₂ hb hg
    refine ⟨?_, ?_, ?_⟩
    · intro hts
      rw [annotate_text_reach inp ts₁ t ts₂ hok hb hg,
        annotate_tokens_cons_noText inp.sap ts₂ ts₁.length hts]
    · intro hts
      rw [annotate_text_reach inp ts₁ t ts₂ hok hb hg,
        annotate_tokens_cons_emptyText inp.sap ts₂ ts₁.length hts]
    · intro s hts hs
      refine ⟨?_, ?_⟩
      · intro hsok hsb
        rw [annotate_text_reach inp ts₁ t ts₂ hok hb hg,
          annotate_tokens_cons_sapParse inp.sap ts₂ ts₁.length hts hs hsok hsb]
      · intro hsok
        rw [annotate_text_reach inp ts₁ t ts₂ hok hb hg,
          annotate_tokens_cons_notOk inp.sap ts₂ ts₁.length hts hs hsok]

/-- Witness for C2: a recognizer body that fails to parse makes
`annotate_text` raise. -/
theorem c2_hard_failures_witness :
    (annotate_text inpRecBad).outcome = .raised .recParse :=
  (c2_hard_failures inpRecBad rfl).1 rfl

/-- Counterexample for C2 as stated: a Stage 2 response with non-success
status does not make `annotate` raise — it returns the empty list. -/
theorem c2_counterexample :
    inpSapDown.recResp.ok = true ∧
    (inpSapDown.sap 0).ok = false ∧
    (annotate_text inpSapDown).outcome = .ret [] :=
  ⟨rfl, rfl, by decide⟩

/-- Claim C3: if the recognizer responds ok with tokens that all have
non-empty text and every normalizer call is ok with a non-empty
candidate list, `annotate_text` returns exactly one Denotation per
token, in token order, each carrying the token's fields plus an `obj`
built from the first candidate's curie, label and distance score. -/
theorem c3_all_good (inp : AnnotateInput) (ts : List Token)
    (hok : inp.recResp.ok = true) (hb : inp.recResp.body = .toks ts)
    (hg : goodAll inp.sap ts 0 = true) :
    (annotate_text inp).outcome = .ret (goodDens inp.sap ts 0) ∧
    (goodDens inp.sap ts 0).length = ts.length ∧
    (∀ (j : Nat) (t : Token), ts[j]? = some t →
      (goodDens inp.sap ts 0)[j]? =
        some ⟨t.attrs,
          "MESH:" ++ (firstCand (inp.sap j)).curie ++ " (" ++
            (firstCand (inp.sap j)).label ++ ", score: " ++
            (firstCand (inp.sap j)).distance_score ++ ")"⟩) := by
  refine ⟨?_, goodDens_length inp.sap ts 0, ?_⟩
  · rw [annotate_text_of_loop inp ts hok hb,
      annotate_tokens_allGood inp.sap ts 0 hg]
  · intro j t hjt
    rw [goodDens_get? inp.sap ts 0 j, hjt]
    simp [mkDenot, objStr]

/-- Witness for C3: two good tokens yield exactly two denotations, in
order. -/
theorem c3_all_good_witness :
    goodAll inpTwoGood.sap [tokHeart, tokRate] 0 = true ∧
    (annotate_text inpTwoGood).outcome =
      .ret (goodDens inpTwoGood.sap [tokHeart, tokRate] 0) :=
  ⟨by decide, (c3_all_good inpTwoGood [tokHeart, tokRate] rfl rfl (by decide)).1⟩

/-- Claim C4 (amended): a syntactically valid normalizer response whose
candidate list is empty does not silently drop the token — once the loop
reaches that token, `annotate_text` raises (the `assert result`
assertion), aborting annotation of the entire input. -/
theorem c4_empty_candidates_raise (inp : AnnotateInput) (ts₁ : List Token)
    (t : Token) (ts₂ : List Token) (s : String)
    (hok : inp.recResp.ok = true)
    (hb : inp.recResp.body = .toks (ts₁ ++ t :: ts₂))
    (hg : goodAll inp.sap ts₁ 0 = true)
    (hts : t.text? = some s) (hs : s ≠ "")
    (hsok : (inp.sap ts₁.length).ok = true)
    (hsb : (inp.sap ts₁.length).body = .results []) :
    (annotate_text inp).outcome = .raised .sapEmptyResult := by
  rw [annotate_text_reach inp ts₁ t ts₂ hok hb hg,
    annotate_tokens_cons_sapEmpty inp.sap ts₂ ts₁.length hts hs hsok hsb]

/-- Witness for C4 (amended): one token, ok normalizer response with an
empty candidate list: `annotate_text` raises. -/
theorem c4_empty_candidates_raise_witness :
    (annotate_text inpSapEmpty).outcome = .raised .sapEmptyResult :=
  c4_empty_candidates_raise inpSapEmpty [] tokHeart [] "heart"
    rfl rfl rfl rfl (by decide) rfl rfl

/-- Counterexample for C4 as stated: an ok normalizer response with an
empty parsed candidate list makes `annotate_text` raise instead of
silently dropping the token and continuing. -/
theorem c4_counterexample :
    inpSapEmpty.recResp.ok = true ∧
    (inpSapEmpty.sap 0).ok = true ∧
    (inpSapEmpty.sap 0).body = .results [] ∧
    (annotate_text inpSapEmpty).outcome = .raised .sapEmptyResult :=
  ⟨rfl, rfl, rfl, by decide⟩

/-- Claim C5: a recognizer response with non-success status makes
`annotate_text` return the empty sequence, with no normalizer call made
at all. -/
theorem c5_stage1_soft_failure (inp : AnnotateInput)
    (h : inp.recResp.ok = false) :
    annotate_text inp = ⟨.ret [], []⟩ := by
  simp [annotate_text, h]

/-- Witness for C5. -/
theorem c5_stage1_soft_failure_witness :
    annotate_text inpRecDown = ⟨.ret [], []⟩ :=
  c5_stage1_soft_failure inpRecDown rfl

/-- Claim C6 (spec-modelled retry semantics): every request whose first
response status is in the forcelist {429, 500, 502, 503, 504} is
retried; at most 4 total attempts are ever made; a request answered 503
on attempts 1–3 and 200 on attempt 4 succeeds with exactly 4 attempts;
and the backoff delays double per retry (0s, 1s, 2s, 4s). -/
theorem c6_retry_policy :
    (∀ responses : Nat → Nat, (sendWithRetry responses).2 ≤ retry_total) ∧
    (∀ responses : Nat → Nat, responses 0 ∈ retry_status_forcelist →
      2 ≤ (sendWithRetry responses).2) ∧
    sendWithRetry (fun i => if i < 3 then 503 else 200) = (200, 4) ∧
    [backoff_delay 1, backoff_delay 2, backoff_delay 3, backoff_delay 4]
      = [0, 1, 2, 4] := by
  refine ⟨?_, ?_, by decide, by decide⟩
  · intro r
    have h := retryFrom_attempts_le r retry_total 0
    simpa [sendWithRetry, retry_total] using h
  · intro r hr
    have h4 : retry_total = 2 + 2 := rfl
    unfold sendWithRetry
    rw [h4, retryFrom, if_pos hr]
    have h := retryFrom_attempts_ge r (2 + 1) (0 + 1)
    omega

/-- Witness for C6. -/
theorem c6_retry_policy_witness :
    (sendWithRetry (fun _ => 503)).2 ≤ retry_total ∧
    2 ≤ (sendWithRetry (fun _ => 503)).2 ∧
    sendWithRetry (fun i => if i < 3 then 503 else 200) = (200, 4) :=
  ⟨c6_retry_policy.1 (fun _ => 503),
   c6_retry_policy.2.1 (fun _ => 503) (by decide),
   c6_retry_policy.2.2.1⟩

/-- Claim C7: a document whose `data_dictionary` key holds the field
list directly and a document whose `data_dictionary` key holds a mapping
whose own `data_dictionary` key holds that list parse to the identical
field sequence. -/
theorem c7_dual_shape (fs : List Field) :
    parse_fields (.bareList fs) = parse_fields (.nested (some fs)) := rfl

/-- Claim C8 (amended): a token with empty text is never silently
skipped — once the SAPBERT loop reaches it (every earlier token had
non-empty text and an ok, non-empty normalizer response), `annotate_text`
raises the empty-text assertion, aborting annotation of the whole input;
if an earlier token fails first, its own failure mode (an early empty
return or a different exception) wins instead. -/
theorem c8_empty_token_raises (inp : AnnotateInput) (ts₁ : List Token)
    (t : Token) (ts₂ : List Token) (hok : inp.recResp.ok = true)
    (hb : inp.recResp.body = .toks (ts₁ ++ t :: ts₂))
    (hg : goodAll inp.sap ts₁ 0 = true) (hts : t.text? = some "") :
    (annotate_text inp).outcome = .raised .tokenEmptyText := by
  rw [annotate_text_reach inp ts₁ t ts₂ hok hb hg,
    annotate_tokens_cons_emptyText inp.sap ts₂ ts₁.length hts]

/-- Witness for C8 (amended): an empty-text token as the first token
makes `annotate_text` raise. -/
theorem c8_empty_token_raises_witness :
    (annotate_text inpEmptyFirst).outcome = .raised .tokenEmptyText :=
  c8_empty_token_raises inpEmptyFirst [] tokEmpty [] rfl rfl rfl rfl

/-- Counterexample for C8 as stated: a successful recognizer response
contains an empty-text token, yet `annotate_text` returns a value (the
empty list) without raising, because an earlier token's non-ok
normalizer response triggers the in-loop `return []` before the
empty-text token is reached. -/
theorem c8_counterexample :
    inpEmptyShadowed.recResp.ok = true ∧
    inpEmptyShadowed.recResp.body = .toks [tokHeart, tokEmpty] ∧
    tokEmpty.text? = some "" ∧
    (annotate_text inpEmptyShadowed).outcome = .ret [] :=
  ⟨rfl, rfl, rfl, by decide⟩

/-- Claim C9: the derived annotation-input text is the name, `": "`, the
description, a newline, then one `"{key}: {value}"` line plus newline
per encoding pair in order; and for a field with empty name, empty
description and no encodings it consists of the separators only. -/
theorem c9_build_text (f : Field) :
    build_text f =
      (f.name?.getD "") ++ ": " ++ (f.description?.getD "") ++ "\n"
        ++ encLines (f.encodings?.getD []) ∧
    build_text ⟨some "", some "", none, none, some []⟩ = ": " ++ "\n" := by
  constructor
  · unfold build_text encodings_as_str
    rw [encodings_foldl]
    simp [String.empty_append]
  · rfl

/-- Claim C10: an input file with a `.json` name whose contents fail to
parse as JSON makes `annotate_dds` raise, aborting the entire batch run:
the per-field isolation boundary does not cover file reading/parsing. -/
theorem c10_parse_failure_aborts (net : String → AnnotateInput)
    (files : List InputFile)
    (h : ∃ file ∈ files, isJsonName file.filename = true ∧
      file.content = Except.error ()) :
    annotate_dds net files = .error () := by
  unfold annotate_dds
  exact run_files_error net files ⟨0, 0, 0, []⟩ h

/-- Witness for C10: a good file followed by an unparseable `.json` file
aborts the run. -/
theorem c10_parse_failure_aborts_witness :
    annotate_dds exNet filesBadParse = .error () :=
  c10_parse_failure_aborts exNet filesBadParse
    ⟨⟨"bad.json", .error ()⟩,
     List.mem_cons_of_mem _ (List.mem_cons_self _ _), by decide, rfl⟩

end MdsImport
